import Mathlib

/-!
# Verification of `geodo/core.py` (OGGM geodown)

A shallow embedding, in Lean 4, of the DEM tile-resolution engine of
`src/geodo/core.py`:

* the pure zone indexers `srtm_zone`, `dem3_viewpano_zone`, `aster_zone`
  (floats are modelled by exact rationals `ℚ`, `np.ceil`/`np.floor` by
  integer ceiling/floor);
* the per-tile download operations `_download_srtm_file_unlocked` and
  `_download_dem3_viewpano_unlocked`, with the network and the archive
  contents supplied by oracles (one `Attempt` outcome per `urlretrieve`
  call) and the file system modelled as the list of existing paths;
* the source-selection entry point `get_topo_file`, with the external
  collaborators (configured paths, download primitives, `os.path.isfile`,
  the md5 fallback for long names) supplied by an environment record.

Python exceptions are modelled by `Except`/error results, `time.sleep`
and `urlretrieve` calls by an explicit event trace.
-/

/- Batteries marks `Rat.mul`/`Rat.add`/`Rat.sub`/`Rat.inv` irreducible,
which blocks kernel evaluation in `decide`; restore reducibility. -/
attribute [local semireducible] Rat.mul Rat.add Rat.sub Rat.inv

namespace Geodo

/-- The ceiling `np.ceil` on an exact rational, as an integer. -/
def ratCeil (q : ℚ) : ℤ := -Rat.floor (-q)

theorem ratCeil_eq_ceil (q : ℚ) : ratCeil q = ⌈q⌉ := by
  have h1 : Rat.floor (-q) = ⌊-q⌋ := by rw [Rat.floor_def', ← Rat.floor_def]
  rw [ratCeil, h1, Int.floor_neg, neg_neg]

/-- The floor `np.floor` on an exact rational, as an integer. -/
def ratFloor (q : ℚ) : ℤ := Rat.floor q

theorem ratFloor_eq_floor (q : ℚ) : ratFloor q = ⌊q⌋ := by
  rw [ratFloor, Rat.floor_def', ← Rat.floor_def]

/-- Absolute value `abs` on a rational (kernel-computable). -/
def ratAbs (q : ℚ) : ℚ := if q < 0 then -q else q

/-- Python `os.path.join` of two components. -/
def pathJoin (a b : String) : String := a ++ "/" ++ b

/-- Formatting in the `'{:02.0f}'`/`'%02.0f'` style of an integral value:
decimal digits, zero-padded on the left to width `w`. -/
def pad0 (w : ℕ) (z : ℤ) : String :=
  let s := toString z
  if s.length < w then String.mk (List.replicate (w - s.length) '0') ++ s else s

/-- Lexicographic order on character lists by code point (the order
Python uses to compare strings). -/
def charListLt : List Char → List Char → Bool
  | [], [] => false
  | [], _ :: _ => true
  | _ :: _, [] => false
  | a :: as, b :: bs => if a < b then true else if b < a then false else charListLt as bs

/-- Comparison `a <= b` on strings, by code points (as in Python). -/
def strLe (a b : String) : Bool := a == b || charListLt a.data b.data

/-- One insertion step of an insertion sort on strings. -/
def insertStr (a : String) : List String → List String
  | [] => [a]
  | b :: l => if strLe a b then a :: b :: l else b :: insertStr a l

/-- Python's `sorted` on a list of strings (insertion sort; code-point
lexicographic order, as in Python). -/
def pysorted (l : List String) : List String := l.foldr insertStr []

theorem mem_insertStr {x a : String} {l : List String} :
    x ∈ insertStr a l ↔ x = a ∨ x ∈ l := by
  induction l with
  | nil => simp [insertStr]
  | cons b t ih =>
      by_cases h : strLe a b = true
      · simp [insertStr, h]
      · simp [insertStr, h, ih]
        tauto

theorem mem_pysorted {x : String} {l : List String} :
    x ∈ pysorted l ↔ x ∈ l := by
  induction l with
  | nil => simp [pysorted]
  | cons b t ih => simp [pysorted, mem_insertStr] at *; tauto

/-- Sampling `np.linspace(mi, ma, n)` for an integral number of points `n`,
in exact rational arithmetic: `n` evenly spaced samples from `mi` to
`ma` inclusive. -/
def linspace (mi ma : ℚ) (n : ℕ) : List ℚ :=
  (List.range n).map fun i : ℕ => mi + (ma - mi) * (i : ℚ) / ((n : ℚ) - 1)

/-- The number of sample points `np.ceil((ma - mi) + 3)` used by
`srtm_zone` and `aster_zone` to densify an axis. -/
def nCover (mi ma : ℚ) : ℕ := (ratCeil (ma - mi + 3)).toNat

/-! ## `srtm_zone` (core.py lines 580-617)

SRTM tiles are 5°×5°, anchored at `srtm_x0 = -180`, `srtm_y0 = 60`,
`srtm_dx = 5`, `srtm_dy = -5`.  Each sampled point maps to the tile
`(zx, zy) = (ceil(dx / 5), ceil(dy / -5))` and the zone string
`'{:02.0f}_{:02.0f}'`.  The loop asserts `dy < 0` for every sampled
latitude; the assertion failure is modelled as a `none` result. -/

/-- The column `zx = np.ceil((lon - srtm_x0) / srtm_dx)` at one sampled point. -/
def srtmTileX (lon : ℚ) : ℤ := ratCeil ((lon - (-180)) / 5)

/-- The row `zy = np.ceil((lat - srtm_y0) / srtm_dy)` at one sampled point. -/
def srtmTileY (lat : ℚ) : ℤ := ratCeil ((lat - 60) / (-5))

/-- The name `'{:02.0f}_{:02.0f}'.format(zx, zy)` for one sampled point. -/
def srtmZoneName (lon lat : ℚ) : String :=
  pad0 2 (srtmTileX lon) ++ "_" ++ pad0 2 (srtmTileY lat)

/-- The densified longitude axis of `srtm_zone`
(`np.linspace(mi, ma, np.ceil((ma - mi) + 3))`). -/
def srtmLonSamples (lonRan : ℚ × ℚ) : List ℚ :=
  let mi := min lonRan.1 lonRan.2
  let ma := max lonRan.1 lonRan.2
  linspace mi ma (nCover mi ma)

/-- The densified latitude axis of `srtm_zone`. -/
def srtmLatSamples (latRan : ℚ × ℚ) : List ℚ :=
  let mi := min latRan.1 latRan.2
  let ma := max latRan.1 latRan.2
  linspace mi ma (nCover mi ma)

/-- The sorted, deduplicated zone list built by the double loop of
`srtm_zone` (before considering the assertion). -/
def srtmZoneList (lonRan latRan : ℚ × ℚ) : List String :=
  pysorted (((srtmLonSamples lonRan).flatMap fun lon =>
    (srtmLatSamples latRan).map fun lat => srtmZoneName lon lat).dedup)

/-- The indexer `srtm_zone(lon_ran, lat_ran)` (an extent per axis, as in every call
site).  `none` models the `assert dy < 0` failure, which fires iff some
sampled latitude has `lat - 60 ≥ 0` (and the longitude axis is
non-empty, so that the loop body runs). -/
def srtm_zone (lonRan latRan : ℚ × ℚ) : Option (List String) :=
  if (srtmLonSamples lonRan).isEmpty ∨
      ∀ lat ∈ srtmLatSamples latRan, lat - 60 < 0 then
    some (srtmZoneList lonRan latRan)
  else
    none

-- Concrete evaluations of the embedding (checked by the kernel).
example : srtm_zone (11, 12) (46, 47) = some ["39_03"] := by decide
example : srtm_zone (10, 12) (46, 47) = some ["38_03", "39_03"] := by decide
example : srtm_zone (10, 12) (58, 61) = none := by decide

/-! ## `dem3_viewpano_zone` (core.py lines 620-705)

Special regions first (`DEM3REG` table, lines 66-84), with irregular
sub-cases inside; otherwise a generic 6°×4° lettered grid. -/

/-- A `[lon_min, lon_max, lat_min, lat_max]` bounding box, as in the
values of the `DEM3REG` dict. -/
structure Box4 where
  x0 : ℚ
  x1 : ℚ
  y0 : ℚ
  y1 : ℚ

/-- The `DEM3REG` table of special regions for viewfinderpanoramas.org
(core.py lines 66-84; the Antarctica/Greenland entries are commented out
in the source).  A Python dict iterates in insertion order, hence a
list of pairs. -/
def DEM3REG : List (String × Box4) :=
  [("ISL", ⟨-25, -12, 63, 67⟩),
   ("SVALBARD", ⟨10, 34, 76, 81⟩),
   ("JANMAYEN", ⟨-10, -7, 70, 72⟩),
   ("FJ", ⟨36, 66, 79, 82⟩),
   ("FAR", ⟨-8, -6, 61, 63⟩),
   ("BEAR", ⟨18, 20, 74, 75⟩),
   ("SHL", ⟨-3, 0, 60, 61⟩)]

/-- The containment test of `dem3_viewpano_zone`:
`np.min(lon_ran) >= box[0] and np.max(lon_ran) <= box[1] and
np.min(lat_ran) >= box[2] and np.max(lat_ran) <= box[3]`. -/
def inBox (lonRan latRan : ℚ × ℚ) (b : Box4) : Prop :=
  b.x0 ≤ min lonRan.1 lonRan.2 ∧ max lonRan.1 lonRan.2 ≤ b.x1 ∧
  b.y0 ≤ min latRan.1 latRan.2 ∧ max latRan.1 latRan.2 ≤ b.y1

instance (lonRan latRan : ℚ × ℚ) (b : Box4) : Decidable (inBox lonRan latRan b) := by
  unfold inBox; exact inferInstance

/-- The irregular sub-case chain inside a matched special region
(core.py lines 649-676): Antarctica insets, then non-rectangular
Greenland tiles, else the region's own name. -/
def dem3Subcases (lonRan latRan : ℚ × ℚ) (f : String) : List String :=
  if inBox lonRan latRan ⟨-91, -90, -72, -68⟩ then ["SR15"]
  else if inBox lonRan latRan ⟨-47, -43, -61, -60⟩ then ["SP23"]
  else if inBox lonRan latRan ⟨162, 165, -68, -66⟩ then ["SQ58"]
  else if inBox lonRan latRan ⟨-66, -60, 80, 83⟩ then ["U20"]
  else if inBox lonRan latRan ⟨-60, -54, 80, 83⟩ then ["U21"]
  else if inBox lonRan latRan ⟨-54, -48, 80, 83⟩ then ["U22"]
  else [f]

/-- The generic zone name for one sampled point (core.py lines 694-704):
`zx = np.ceil(dx / 6)`, `zy = chr(int(abs(dy / 4)) + ord('A'))`, with an
`'S'` marker for southern latitudes. -/
def dem3ZoneName (lon lat : ℚ) : String :=
  let dx := lon - (-180)
  let dy := lat - 0
  let zx := ratCeil (dx / 6)
  let zy := Char.ofNat ((ratFloor (ratAbs (dy / 4))).toNat + 65)
  if 0 ≤ lat then String.mk [zy] ++ pad0 2 zx
  else "S" ++ String.mk [zy] ++ pad0 2 zx

/-- The densified longitude axis of the generic part,
`np.linspace(mi, ma, np.ceil((ma - mi) / srtm_dy) + 3)` — the source
divides the longitude span by `srtm_dy = 4`. -/
def dem3LonSamples (lonRan : ℚ × ℚ) : List ℚ :=
  let mi := min lonRan.1 lonRan.2
  let ma := max lonRan.1 lonRan.2
  linspace mi ma ((ratCeil ((ma - mi) / 4)).toNat + 3)

/-- The densified latitude axis of the generic part (span divided by
`srtm_dx = 6`). -/
def dem3LatSamples (latRan : ℚ × ℚ) : List ℚ :=
  let mi := min latRan.1 latRan.2
  let ma := max latRan.1 latRan.2
  linspace mi ma ((ratCeil ((ma - mi) / 6)).toNat + 3)

/-- The generic lettered-grid computation of `dem3_viewpano_zone`
(core.py lines 678-705). -/
def dem3Generic (lonRan latRan : ℚ × ℚ) : List String :=
  pysorted (((dem3LonSamples lonRan).flatMap fun lon =>
    (dem3LatSamples latRan).map fun lat => dem3ZoneName lon lat).dedup)

/-- The `for _f in extra_reg.keys()` loop: first containing region wins
and returns through the sub-case chain; no containing region falls
through to the generic computation. -/
def dem3RegLookup (lonRan latRan : ℚ × ℚ) : List (String × Box4) → List String
  | [] => dem3Generic lonRan latRan
  | (f, b) :: rest =>
      if inBox lonRan latRan b then dem3Subcases lonRan latRan f
      else dem3RegLookup lonRan latRan rest

/-- The indexer `dem3_viewpano_zone(lon_ran, lat_ran, extra_reg=DEM3REG)`. -/
def dem3_viewpano_zone (lonRan latRan : ℚ × ℚ)
    (extraReg : List (String × Box4) := DEM3REG) : List String :=
  dem3RegLookup lonRan latRan extraReg

-- Concrete evaluations of the embedding (checked by the kernel).
example : dem3_viewpano_zone (-20, -15) (64, 65) = ["ISL"] := by decide
example : dem3_viewpano_zone (-179, -178) (70, 71) = ["R01"] := by decide
example : dem3_viewpano_zone (-181/2, -451/5) (-70, -69)
    [("16-30", ⟨-91, -1, -90, -60⟩)] = ["SR15"] := by decide

/-! ## `aster_zone` (core.py lines 708-750) -/

/-- The `(zone, unit)` pair for one sampled point: 1°×1° tile inside a
5°×5° unit, with hemisphere letters chosen by `math.copysign(1, ·)` on
the floored values (for exact rationals there is no `-0.0`, so the test
is `< 0`). -/
def asterZoneUnit (lon lat : ℚ) : String × String :=
  let dx0 := ratFloor lon
  let zx0 : ℤ := ratFloor (lon / 5) * 5
  let lonNeg : Bool := dx0 < 0
  let dx := if lonNeg then -dx0 else dx0
  let zx := if lonNeg then -zx0 else zx0
  let lonLet := if lonNeg then "W" else "E"
  let dy0 := ratFloor lat
  let zy0 : ℤ := ratFloor (lat / 5) * 5
  let latNeg : Bool := dy0 < 0
  let dy := if latNeg then -dy0 else dy0
  let zy := if latNeg then -zy0 else zy0
  let latLet := if latNeg then "S" else "N"
  (latLet ++ pad0 2 dy ++ lonLet ++ pad0 3 dx,
   latLet ++ pad0 2 zy ++ lonLet ++ pad0 3 zx)

/-- Python `if z not in zones: zones.append(z); units.append(u)` — the parallel
deduplicating accumulation of `aster_zone`. -/
def asterFold (acc : List String × List String) (zu : String × String) :
    List String × List String :=
  if zu.1 ∈ acc.1 then acc else (acc.1 ++ [zu.1], acc.2 ++ [zu.2])

/-- The indexer `aster_zone(lon_ex, lat_ex)`: parallel lists of 1°×1° zones and
their enclosing 5°×5° units. -/
def aster_zone (lonEx latEx : ℚ × ℚ) : List String × List String :=
  let mi₁ := min lonEx.1 lonEx.2
  let ma₁ := max lonEx.1 lonEx.2
  let lons := linspace mi₁ ma₁ (nCover mi₁ ma₁)
  let mi₂ := min latEx.1 latEx.2
  let ma₂ := max latEx.1 latEx.2
  let lats := linspace mi₂ ma₂ (nCover mi₂ ma₂)
  (lons.flatMap fun lon => lats.map fun lat => asterZoneUnit lon lat).foldl
    asterFold ([], [])

-- Concrete evaluation of the embedding (checked by the kernel).
example : (aster_zone (10, 10) (46, 46)) = (["N46E010"], ["N45E010"]) := by decide

/-! ## Download coordinator (core.py lines 291-468)

The file system is the list of existing paths; each `urlretrieve` call
consumes one `Attempt` from an oracle indexed by the value of
`retry_counter` at that call; archive contents are supplied by the
caller (for SRTM the expected `.tif`, for DEM3 the extracted `.hgt`
set).  `urlretrieve`/`time.sleep` calls are recorded as events. -/

/-- Outcome of one `urlretrieve` + `ZipFile` round: transfer succeeded
(with a possibly corrupt archive), raised `HTTPError(code)`, or raised
`ContentTooShortError`. -/
inductive Attempt where
  | ok (corrupt : Bool)
  | http (code : ℕ)
  | tooShort
deriving DecidableEq

/-- Observable side effects: one network transfer, one `time.sleep`. -/
inductive Ev where
  | fetch
  | sleep (secs : ℕ)
deriving DecidableEq

/-- Errors (Python exceptions) that can escape the download functions. -/
inductive DlErr where
  /-- `HTTPError` re-raised: not 404, and not 5xx within the retry bound. -/
  | http (code : ℕ)
  /-- `ContentTooShortError` (uncaught in the SRTM loop). -/
  | tooShort
  /-- Python 3 `NameError` in the DEM3 `ContentTooShortError` handler:
  it formats `err.code`, but `err` (bound by the `HTTPError` clause) is
  unbound there. -/
  | nameError
  /-- An `assert` failed. -/
  | assertFail
  /-- `RuntimeError("We should have some files here, ...")`. -/
  | noFilesHere
  /-- Fuel artifact of the loop embedding; never reached when the fuel
  covers `retry_max + 1` iterations (the most the `while` can run). -/
  | loopLimit
deriving DecidableEq

/-- Result of the `while True` download loop: `break` reached (with the
updated file system), an early `return None` (ocean tile), or an
exception. -/
inductive LoopRes where
  | done (fs : List String)
  | ocean (fs : List String)
  | fail (e : DlErr) (fs : List String)
deriving DecidableEq

instance {ε α : Type} [DecidableEq ε] [DecidableEq α] :
    DecidableEq (Except ε α) := fun a b =>
  match a, b with
  | .ok x, .ok y => decidable_of_iff (x = y) (by simp)
  | .error x, .error y => decidable_of_iff (x = y) (by simp)
  | .ok _, .error _ => isFalse (by simp)
  | .error _, .ok _ => isFalse (by simp)

/-- Result of a download operation: the returned value (or the escaped
exception), the updated file system, and the event trace. -/
structure DLOut where
  res : Except DlErr (Option String)
  fs : List String
  events : List Ev
deriving DecidableEq

/-- The `while True` loop of `_download_srtm_file_unlocked` (lines
322-346).  `counter` is the value of `retry_counter` before the
iteration; on success the archive `ofile` and its `extracted` contents
appear on disk; `HTTPError` leaves no file (`_urlretrieve` removes a
partial one); a corrupt archive leaves `ofile` and returns `None`. -/
def srtmLoop (resp : ℕ → Attempt) (ofile : String) (extracted : List String)
    (retryMax : ℕ) : ℕ → ℕ → List String → LoopRes × List Ev
  | 0, _, fs => (.fail .loopLimit fs, [])
  | fuel + 1, counter, fs =>
      let c := counter + 1
      match resp c with
      | .ok corrupt =>
          if corrupt then (.ocean (ofile :: fs), [.fetch])
          else (.done (extracted ++ ofile :: fs), [.fetch])
      | .http code =>
          if code = 404 then (.ocean fs, [.fetch])
          else if 500 ≤ code ∧ code < 600 ∧ c ≤ retryMax then
            let r := srtmLoop resp ofile extracted retryMax fuel c fs
            (r.1, .fetch :: .sleep 10 :: r.2)
          else (.fail (.http code) fs, [.fetch])
      | .tooShort => (.fail .tooShort fs, [.fetch])

/-- The downloader `_download_srtm_file_unlocked(zone, outdir, retry=5)` (lines
310-350).  Extraction of a valid `srtm_<zone>.zip` yields
`srtm_<zone>.tif` (the archive contract; the function itself asserts
it).  The fuel `retry + 1` covers every iteration the loop can run. -/
def _download_srtm_file_unlocked (fs : List String) (resp : ℕ → Attempt)
    (zone outdir : String) (retry : ℕ := 5) : DLOut :=
  let ofile := pathJoin outdir ("srtm_" ++ zone ++ ".zip")
  let out := pathJoin outdir ("srtm_" ++ zone ++ ".tif")
  if ofile ∈ fs then
    if out ∈ fs then ⟨.ok (some out), fs, []⟩ else ⟨.error .assertFail, fs, []⟩
  else
    match srtmLoop resp ofile [out] retry (retry + 1) 0 fs with
    | (.done fs', evs) =>
        if out ∈ fs' then ⟨.ok (some out), fs', evs⟩
        else ⟨.error .assertFail, fs', evs⟩
    | (.ocean fs', evs) => ⟨.ok none, fs', evs⟩
    | (.fail e fs', evs) => ⟨.error e, fs', evs⟩

/-- Zones with a newer `v2` file on viewfinderpanoramas.org (lines
385-387). -/
def dem3V2Zones : List String :=
  ["R33", "R34", "R35", "R36", "R37", "R38", "Q32", "Q33", "Q34",
   "Q35", "Q36", "Q37", "Q38", "Q39", "Q40", "P31", "P32", "P33",
   "P34", "P35", "P36", "P37", "P38", "P39", "P40"]

/-- Antarctica UTM-zone archives (line 389). -/
def dem3AntZones : List String := ["01-15", "16-30", "31-45", "46-60"]

/-- The source URL selected for a DEM3 zone (lines 384-392). -/
def dem3Url (zone : String) : String :=
  if zone ∈ dem3V2Zones then
    "http://viewfinderpanoramas.org/dem3/" ++ zone ++ "v2.zip"
  else if zone ∈ dem3AntZones then
    "http://viewfinderpanoramas.org/ANTDEM3/" ++ zone ++ ".zip"
  else
    "http://viewfinderpanoramas.org/dem3/" ++ zone ++ ".zip"

/-- Whether `p` starts `s` (kernel-computable, on code points). -/
def strStartsWith (p s : String) : Bool := p.data.isPrefixOf s.data

/-- Whether `p` ends `s` (kernel-computable, on code points). -/
def strEndsWith (p s : String) : Bool := p.data.isSuffixOf s.data

/-- Python `glob.glob(os.path.join(dir, '*.hgt'))` over the modelled file
system: the existing paths under `dir` that end in `.hgt` (the
filesystem glob is an external primitive; path depth below `dir` is not
distinguished here). -/
def globHgt (fs : List String) (dir : String) : List String :=
  fs.filter fun p => strStartsWith (dir ++ "/") p && strEndsWith ".hgt" p

/-- The `while True` loop of `_download_dem3_viewpano_unlocked` (lines
397-428): as the SRTM loop, except that `ContentTooShortError` is
caught by a handler that immediately raises `NameError` (it prints
`err.code` with `err` unbound under Python 3 semantics). -/
def dem3Loop (resp : ℕ → Attempt) (ofile : String) (extracted : List String)
    (retryMax : ℕ) : ℕ → ℕ → List String → LoopRes × List Ev
  | 0, _, fs => (.fail .loopLimit fs, [])
  | fuel + 1, counter, fs =>
      let c := counter + 1
      match resp c with
      | .ok corrupt =>
          if corrupt then (.ocean (ofile :: fs), [.fetch])
          else (.done (extracted ++ ofile :: fs), [.fetch])
      | .http code =>
          if code = 404 then (.ocean fs, [.fetch])
          else if 500 ≤ code ∧ code < 600 ∧ c ≤ retryMax then
            let r := dem3Loop resp ofile extracted retryMax fuel c fs
            (r.1, .fetch :: .sleep 10 :: r.2)
          else (.fail (.http code) fs, [.fetch])
      | .tooShort => (.fail .nameError fs, [.fetch])

/-- The downloader `_download_dem3_viewpano_unlocked(zone, outdir)` (lines 372-468).
`hgts` is the content of the zone archive (the `.hgt` file set placed by
`extractall`); the raster merge of the globbed `.hgt` files into
`outpath` and the deletion of the originals follow the source (lines
436-468). -/
def _download_dem3_viewpano_unlocked (fs : List String) (resp : ℕ → Attempt)
    (hgts : List String) (zone outdir : String) : DLOut :=
  let ofile := pathJoin outdir ("dem3_" ++ zone ++ ".zip")
  let outpath := pathJoin outdir (zone ++ ".tif")
  if outpath ∈ fs then ⟨.ok (some outpath), fs, []⟩
  else
    let step :=
      if ofile ∈ fs then (LoopRes.done fs, ([] : List Ev))
      else dem3Loop resp ofile hgts 5 6 0 fs
    match step with
    | (.ocean fs', evs) => ⟨.ok none, fs', evs⟩
    | (.fail e fs', evs) => ⟨.error e, fs', evs⟩
    | (.done fs', evs) =>
        let zonedir :=
          if zone.data.length = 4 ∧ zone.data.head? = some 'S' then
            pathJoin outdir (String.mk (zone.data.drop 1))
          else pathJoin outdir zone
        let globlist :=
          if zone ∈ DEM3REG.map Prod.fst then globHgt fs' outdir
          else globHgt fs' zonedir
        if globlist.isEmpty then ⟨.error .noFilesHere, fs', evs⟩
        else
          let fs2 := outpath :: fs'.filter fun p => !globlist.contains p
          ⟨.ok (some outpath), fs2, evs⟩

-- Concrete evaluations of the embedding (checked by the kernel).
example : _download_srtm_file_unlocked [] (fun _ => .http 404) "39_03" "topo" =
    ⟨.ok none, [], [.fetch]⟩ := by decide
example : _download_srtm_file_unlocked [] (fun _ => .ok false) "39_03" "topo" =
    ⟨.ok (some "topo/srtm_39_03.tif"),
     ["topo/srtm_39_03.tif", "topo/srtm_39_03.zip"], [.fetch]⟩ := by decide
example : _download_srtm_file_unlocked [] (fun _ => .http 503) "39_03" "topo" =
    ⟨.error (.http 503), [],
     [.fetch, .sleep 10, .fetch, .sleep 10, .fetch, .sleep 10, .fetch,
      .sleep 10, .fetch, .sleep 10, .fetch]⟩ := by decide
example : _download_dem3_viewpano_unlocked [] (fun _ => .ok true) [] "R01" "topo" =
    ⟨.ok none, ["topo/dem3_R01.zip"], [.fetch]⟩ := by decide
example : _download_dem3_viewpano_unlocked [] (fun _ => .ok false)
    ["topo/R01/a.hgt"] "R01" "topo" =
    ⟨.ok (some "topo/R01.tif"),
     ["topo/R01.tif", "topo/dem3_R01.zip"], [.fetch]⟩ := by decide

/-! ## `get_topo_file` (core.py lines 952-1095)

The value of the Python `source` parameter/local. -/

inductive PySource where
  | none
  | str (s : String)
  | list (l : List String)
deriving DecidableEq

/-- Exceptions that can escape `get_topo_file`.

On `typeErrArity`: the module defines `download_srtm_file(zone, outdir)`
and `download_dem3_viewpano(zone, outdir)` but `get_topo_file` calls
them as `download_srtm_file(z)` / `download_dem3_viewpano(z)` (lines
1050 and 1033), and `get_download_lock(lock_dir)` is called as
`get_download_lock()` inside `_download_aster_file` and
`_download_alternate_topo_file` (lines 472 and 511), so every branch of
`get_topo_file` that reaches a download raises
`TypeError: missing ... required positional argument` at that call. -/
inductive TopoErr where
  /-- `TypeError`: a download helper invoked without its required
  directory argument (see above). -/
  | typeErrArity
  /-- `TypeError`: `os.path.isfile(None)` in the source-list loop. -/
  | typeErrNoneArg
  /-- `AssertionError` from `assert dy < 0` in `srtm_zone`. -/
  | srtmAssert
  /-- `AssertionError` from `assert os.path.exists(t_file)` (ETOPO1). -/
  | etopoAssert
  /-- `RuntimeError('No topography file available!')`. -/
  | noTopo
  /-- `ValueError('Chosen lat/lon values are not available')`. -/
  | chosenLatLon
  /-- `UnboundLocalError`: `sources` (or `source_str`/`zones`) read
  before assignment at lines 1060-1069. -/
  | unboundLocal
deriving DecidableEq

/-- The ambient configuration and filesystem of `get_topo_file`:
`cfg.PATHS['dem_file']` (when the key is present), `cfg.PATHS['topo_dir']`,
`os.path.isfile`/`os.path.exists`, and `hashlib.md5(...).hexdigest()`. -/
structure TopoEnv where
  demFile : Option String
  topoDir : String
  isfile : String → Bool
  md5hex : String → String

/-- Result of `get_topo_file`: the returned `(path, source_str)` pair
(or the escaped exception), plus the trace of zone indexers that ran
(`"SRTM"`, `"DEM3"`, `"ASTER"` — one entry appended when the
corresponding branch at lines 1028-1051 executes). -/
structure TopoOut where
  res : Except TopoErr (Option String × String)
  trace : List String
deriving DecidableEq

/-- ASCII lowercase of one character (`str.lower` on the source names
used here). -/
def lowerChar (c : Char) : Char :=
  if 65 ≤ c.toNat ∧ c.toNat ≤ 90 then Char.ofNat (c.toNat + 32) else c

/-- Python `s.lower()` (kernel-computable). -/
def strLower (s : String) : String := String.mk (s.data.map lowerChar)

/-- Python `'+'.join(zones)`. -/
def strJoinPlus : List String → String
  | [] => ""
  | [z] => z
  | z :: y :: rest => z ++ "+" ++ strJoinPlus (y :: rest)

/-- Lines 1059-1095: filter out `None` sources, fail on an empty set,
return a single file directly, or merge under a deterministic cache
name.  Reading `sources` (or `source_str`/`zones`) when no branch
assigned them raises `UnboundLocalError`. -/
def topoFinish (env : TopoEnv) (zonesOpt : Option (List String))
    (sourceStrOpt : Option String) (sourcesOpt : Option (List (Option String)))
    (trace : List String) : TopoOut :=
  match sourcesOpt with
  | Option.none => ⟨.error .unboundLocal, trace⟩
  | Option.some srcs =>
      let sources := srcs.filterMap id
      match sources with
      | [] => ⟨.error .noTopo, trace⟩
      | [s] =>
          match sourceStrOpt with
          | Option.none => ⟨.error .unboundLocal, trace⟩
          | Option.some sstr => ⟨.ok (some s, sstr), trace⟩
      | s1 :: s2 :: rest =>
          match sourceStrOpt, zonesOpt with
          | Option.some sstr, Option.some zones =>
              let zoneStr := strJoinPlus zones
              let bname0 := strLower sstr ++ "_merged_" ++ zoneStr ++ ".tif"
              let bname :=
                if bname0.length > 200 then env.md5hex bname0 ++ ".tif" else bname0
              let mergedFile := pathJoin (pathJoin env.topoDir (strLower sstr)) bname
              if env.isfile mergedFile then
                ⟨.ok (some mergedFile, sstr ++ "_MERGED"), trace⟩
              else if (s1 :: s2 :: rest).all fun _ => false then
                ⟨.error .chosenLatLon, trace⟩
              else ⟨.ok (some mergedFile, sstr ++ "_MERGED"), trace⟩
          | _, _ => ⟨.error .unboundLocal, trace⟩

/-- Lines 1054-1057: the explicit `'ETOPO1'` request (the file must
already exist; `assert os.path.exists`). -/
def topoEtopo (env : TopoEnv) (source : PySource) (zonesOpt : Option (List String))
    (sourceStrOpt : Option String) (sourcesOpt : Option (List (Option String)))
    (trace : List String) : TopoOut :=
  if source = .str "ETOPO1" then
    let tfile := pathJoin env.topoDir "ETOPO1_Ice_g_geotiff.tif"
    if env.isfile tfile then ⟨.ok (some tfile, "ETOPO1"), trace⟩
    else ⟨.error .etopoAssert, trace⟩
  else topoFinish env zonesOpt sourceStrOpt sourcesOpt trace

/-- Lines 1023-1051: outside ±60° latitude or an explicit DEM3/ASTER
request selects the lettered-grid / unit-tile scheme (default DEM3);
otherwise the degree-grid (SRTM) scheme.  In each branch the zone
indexer runs first; the per-zone download loop then raises `TypeError`
at its first iteration (see `TopoErr.typeErrArity`) unless the zone
list is empty. -/
def topoMain (env : TopoEnv) (lonEx latEx : ℚ × ℚ) (source0 : PySource) : TopoOut :=
  if min latEx.1 latEx.2 < -60 ∨ max latEx.1 latEx.2 > 60 ∨
      source0 = .str "DEM3" ∨ source0 = .str "ASTER" then
    let source := if source0 = .none then PySource.str "DEM3" else source0
    if source = .str "DEM3" then
      let zones := dem3_viewpano_zone lonEx latEx DEM3REG
      if zones.isEmpty then
        topoEtopo env source (some zones) (some "DEM3") (some []) ["DEM3"]
      else ⟨.error .typeErrArity, ["DEM3"]⟩
    else if source = .str "ASTER" then
      let zu := aster_zone lonEx latEx
      if (zu.1.zip zu.2).isEmpty then
        topoEtopo env source (some zu.1) (some "ASTER") (some []) ["ASTER"]
      else ⟨.error .typeErrArity, ["ASTER"]⟩
    else topoEtopo env source Option.none Option.none Option.none []
  else
    let source := if source0 = .none then PySource.str "SRTM" else source0
    if source = .str "SRTM" then
      match srtm_zone lonEx latEx with
      | Option.none => ⟨.error .srtmAssert, ["SRTM"]⟩
      | Option.some zones =>
          if zones.isEmpty then
            topoEtopo env source (some zones) (some "SRTM") (some []) ["SRTM"]
          else ⟨.error .typeErrArity, ["SRTM"]⟩
    else topoEtopo env source Option.none Option.none Option.none []

/-- Lines 1012-1021: region 19 (Antarctica) or explicit RAMP; distant
non-polar islands (max latitude above -60) fall back to DEM3.  The RAMP
download itself raises `TypeError` (see `TopoErr.typeErrArity`). -/
def topoRamp (env : TopoEnv) (lonEx latEx : ℚ × ℚ) (rgi : Option ℤ)
    (source0 : PySource) : TopoOut :=
  if source0 = .str "RAMP" ∨ rgi = some 19 then
    let source :=
      if max latEx.1 latEx.2 > -60 then
        if source0 = .none then PySource.str "DEM3" else source0
      else
        if source0 = .none then PySource.str "RAMP" else source0
    if source = .str "RAMP" then ⟨.error .typeErrArity, []⟩
    else topoMain env lonEx latEx source
  else topoMain env lonEx latEx source0

/-- Lines 1003-1010: region 5 (Greenland) or explicit GIMP.  The GIMP
download raises `TypeError` (see `TopoErr.typeErrArity`). -/
def topoGimp (env : TopoEnv) (lonEx latEx : ℚ × ℚ) (rgi : Option ℤ)
    (source0 : PySource) : TopoOut :=
  if source0 = .str "GIMP" ∨ rgi = some 5 then
    let source := if source0 = .none then PySource.str "GIMP" else source0
    if source = .str "GIMP" then ⟨.error .typeErrArity, []⟩
    else topoRamp env lonEx latEx rgi source
  else topoRamp env lonEx latEx rgi source0

/-- Lines 994-998 (the user-configured DEM file check) and onward:
`get_topo_file` for a non-list `source` value. -/
def getTopoCore (env : TopoEnv) (lonEx latEx : ℚ × ℚ) (rgi : Option ℤ)
    (source0 : PySource) : TopoOut :=
  match env.demFile with
  | Option.some f =>
      if env.isfile f then
        let source := if source0 = .none then PySource.str "USER" else source0
        if source = .str "USER" then ⟨.ok (some f, "USER"), []⟩
        else topoGimp env lonEx latEx rgi source
      else topoGimp env lonEx latEx rgi source0
  | Option.none => topoGimp env lonEx latEx rgi source0

/-- Lines 985-992: the ordered-list case.  Each entry is resolved
recursively; the first whose result is an existing file is returned.
A fallen-through loop continues at line 994 with `source` still bound
to the list. -/
def getTopoLoop (env : TopoEnv) (lonEx latEx : ℚ × ℚ) (rgi : Option ℤ)
    (sourceList : List String) (trace : List String) :
    List String → TopoOut
  | [] =>
      let r := getTopoCore env lonEx latEx rgi (.list sourceList)
      ⟨r.res, trace ++ r.trace⟩
  | s :: rest =>
      let r := getTopoCore env lonEx latEx rgi (.str s)
      match r.res with
      | .error e => ⟨.error e, trace ++ r.trace⟩
      | .ok (Option.some demf, sstr) =>
          if env.isfile demf then ⟨.ok (some demf, sstr), trace ++ r.trace⟩
          else getTopoLoop env lonEx latEx rgi sourceList (trace ++ r.trace) rest
      | .ok (Option.none, _) => ⟨.error .typeErrNoneArg, trace ++ r.trace⟩

/-- The entry point `get_topo_file(lon_ex, lat_ex, rgi_region=None, source=None)`. -/
def get_topo_file (env : TopoEnv) (lonEx latEx : ℚ × ℚ) (rgi : Option ℤ)
    (source : PySource) : TopoOut :=
  match source with
  | .list l => getTopoLoop env lonEx latEx rgi l [] l
  | s => getTopoCore env lonEx latEx rgi s

-- Concrete evaluations of the embedding (checked by the kernel).
def envT : TopoEnv := ⟨Option.none, "topo", fun _ => false, fun _ => "h"⟩
example : get_topo_file envT (10, 12) (46, 47) Option.none .none =
    ⟨.error .typeErrArity, ["SRTM"]⟩ := by decide
example : get_topo_file envT (10, 12) (59, 60) Option.none .none =
    ⟨.error .srtmAssert, ["SRTM"]⟩ := by decide
example : get_topo_file envT (10, 12) (61, 62) Option.none (.str "SRTM") =
    ⟨.error .unboundLocal, []⟩ := by decide
example : get_topo_file envT (10, 12) (46, 47) Option.none (.list []) =
    ⟨.error .unboundLocal, []⟩ := by decide
example : get_topo_file envT (10, 12) (61, 62) Option.none .none =
    ⟨.error .typeErrArity, ["DEM3"]⟩ := by decide
example : get_topo_file ⟨Option.none, "topo", fun _ => true, fun _ => "h"⟩
    (10, 12) (46, 47) Option.none (.str "ETOPO1") =
    ⟨.ok (some "topo/ETOPO1_Ice_g_geotiff.tif", "ETOPO1"), []⟩ := by decide

/-! ## Lemmas about the densified axes -/

theorem length_linspace (mi ma : ℚ) (n : ℕ) : (linspace mi ma n).length = n := by
  rw [linspace, List.length_map, List.length_range]

theorem mem_linspace_iff {mi ma x : ℚ} {n : ℕ} :
    x ∈ linspace mi ma n ↔ ∃ i < n, mi + (ma - mi) * i / ((n : ℚ) - 1) = x := by
  unfold linspace
  rw [List.mem_map]
  constructor
  · rintro ⟨i, hi, hx⟩; exact ⟨i, List.mem_range.mp hi, hx⟩
  · rintro ⟨i, hi, hx⟩; exact ⟨i, List.mem_range.mpr hi, hx⟩

theorem linspace_first {mi ma : ℚ} {n : ℕ} (h : 0 < n) : mi ∈ linspace mi ma n := by
  rw [mem_linspace_iff]
  exact ⟨0, h, by push_cast; ring⟩

theorem linspace_last {mi ma : ℚ} {n : ℕ} (h : 2 ≤ n) : ma ∈ linspace mi ma n := by
  rw [mem_linspace_iff]
  refine ⟨n - 1, by omega, ?_⟩
  have hc : ((n - 1 : ℕ) : ℚ) = (n : ℚ) - 1 := by
    push_cast [Nat.cast_sub (by omega : 1 ≤ n)]; ring
  have hne : ((n : ℚ) - 1) ≠ 0 := by
    have : (2 : ℚ) ≤ (n : ℚ) := by exact_mod_cast h
    intro hz; nlinarith
  rw [hc, mul_div_assoc, div_self hne]; ring

theorem mem_linspace_bounds {mi ma x : ℚ} {n : ℕ} (h : mi ≤ ma)
    (hx : x ∈ linspace mi ma n) : mi ≤ x ∧ x ≤ ma := by
  rw [mem_linspace_iff] at hx
  obtain ⟨i, hi, rfl⟩ := hx
  rcases Nat.lt_or_ge i 1 with h0 | h1
  · interval_cases i
    constructor
    · simp
    · simp [h]
  · have hn2 : 2 ≤ n := by omega
    have hd : (0 : ℚ) < (n : ℚ) - 1 := by
      have : (2 : ℚ) ≤ (n : ℚ) := by exact_mod_cast hn2
      linarith
    have hiq : (i : ℚ) ≤ (n : ℚ) - 1 := by
      have : (i : ℚ) + 1 ≤ (n : ℚ) := by exact_mod_cast hi
      linarith
    have hiq0 : (0 : ℚ) ≤ (i : ℚ) := by positivity
    constructor
    · have : (0 : ℚ) ≤ (ma - mi) * i / ((n : ℚ) - 1) :=
        div_nonneg (mul_nonneg (by linarith) hiq0) (le_of_lt hd)
      linarith
    · have hle : (ma - mi) * i / ((n : ℚ) - 1) ≤ (ma - mi) := by
        rw [div_le_iff₀ hd]
        nlinarith
      linarith

theorem three_le_nCover {mi ma : ℚ} (h : mi ≤ ma) : 3 ≤ nCover mi ma := by
  have h3 : (3 : ℤ) ≤ ratCeil (ma - mi + 3) := by
    rw [ratCeil_eq_ceil]
    calc (3 : ℤ) = ⌈(3 : ℚ)⌉ := by norm_num
    _ ≤ ⌈ma - mi + 3⌉ := Int.ceil_mono (by linarith)
  unfold nCover
  omega

theorem srtmLatSamples_max_mem (latRan : ℚ × ℚ) :
    max latRan.1 latRan.2 ∈ srtmLatSamples latRan := by
  unfold srtmLatSamples
  exact linspace_last (by have := three_le_nCover (min_le_max
    (a := latRan.1) (b := latRan.2)); omega)

theorem srtmLonSamples_ne_nil (lonRan : ℚ × ℚ) :
    ¬ (srtmLonSamples lonRan).isEmpty = true := by
  unfold srtmLonSamples
  have h3 := three_le_nCover (min_le_max (a := lonRan.1) (b := lonRan.2))
  intro hemp
  rw [List.isEmpty_iff, ← List.length_eq_zero, length_linspace] at hemp
  omega

/-! ## Claim theorems -/

/-- C9.  Implicit precondition of the degree-grid indexer: the
`assert dy < 0` guard of `srtm_zone` fails as soon as any sampled
latitude is ≥ 60, and `get_topo_file` still routes an extent whose
maximum latitude is exactly 60 (with no source/region override and no
user DEM file, and not reaching below -60°) to the SRTM scheme — whose
indexer then crashes the resolution with the assertion error. -/
theorem c9_srtm_assert_at_lat60 :
    (∀ lonRan latRan : ℚ × ℚ, (∃ l ∈ srtmLatSamples latRan, 60 ≤ l) →
      srtm_zone lonRan latRan = Option.none) ∧
    (∀ (env : TopoEnv) (lonEx latEx : ℚ × ℚ),
      env.demFile = Option.none →
      max latEx.1 latEx.2 = 60 →
      ¬ min latEx.1 latEx.2 < -60 →
      get_topo_file env lonEx latEx Option.none .none =
        ⟨.error .srtmAssert, ["SRTM"]⟩) := by
  constructor
  · intro lonRan latRan hex
    obtain ⟨l, hl, hl60⟩ := hex
    unfold srtm_zone
    rw [if_neg]
    push_neg
    constructor
    · exact srtmLonSamples_ne_nil lonRan
    · exact ⟨l, hl, by linarith⟩
  · intro env lonEx latEx hdem hmax hmin
    have hz : srtm_zone lonEx latEx = Option.none := by
      unfold srtm_zone
      rw [if_neg]
      push_neg
      refine ⟨srtmLonSamples_ne_nil lonEx, 60, ?_, by norm_num⟩
      have := srtmLatSamples_max_mem latEx
      rwa [hmax] at this
    have hcond : ¬ (min latEx.1 latEx.2 < -60 ∨ max latEx.1 latEx.2 > 60 ∨
        PySource.none = PySource.str "DEM3" ∨ PySource.none = PySource.str "ASTER") := by
      rintro (h | h | h | h)
      · exact hmin h
      · rw [hmax] at h; exact absurd h (by norm_num)
      · exact PySource.noConfusion h
      · exact PySource.noConfusion h
    simp only [get_topo_file, getTopoCore, hdem, topoGimp, topoRamp, topoMain]
    rw [if_neg hcond]
    simp [hz]

/-- The event trace of `k` retries: `k + 1` transfers with a 10-second
sleep between consecutive ones. -/
def retrySeq : ℕ → List Ev
  | 0 => [.fetch]
  | k + 1 => .fetch :: .sleep 10 :: retrySeq k

theorem srtmLoop_all5xx {resp : ℕ → Attempt} {ofile : String}
    {ext : List String} {code : ℕ} (h5 : 500 ≤ code) (h6 : code < 600)
    (hresp : ∀ i, resp i = .http code) :
    ∀ (k counter : ℕ) (fs : List String), counter + k = 6 → 1 ≤ k →
    srtmLoop resp ofile ext 5 k counter fs = (.fail (.http code) fs, retrySeq (k - 1)) := by
  intro k
  induction k with
  | zero => intro counter fs _ h1; omega
  | succ k ih =>
      intro counter fs hsum _
      rw [srtmLoop, hresp (counter + 1)]
      dsimp only
      rw [if_neg (by omega : ¬ code = 404)]
      rcases Nat.eq_zero_or_pos k with hk | hk
      · subst hk
        rw [if_neg (by omega : ¬ (500 ≤ code ∧ code < 600 ∧ counter + 1 ≤ 5))]
        rfl
      · rw [if_pos ⟨h5, h6, by omega⟩, ih (counter + 1) fs (by omega) hk]
        rcases k with _ | j
        · omega
        · rfl

theorem dem3Loop_all5xx {resp : ℕ → Attempt} {ofile : String}
    {ext : List String} {code : ℕ} (h5 : 500 ≤ code) (h6 : code < 600)
    (hresp : ∀ i, resp i = .http code) :
    ∀ (k counter : ℕ) (fs : List String), counter + k = 6 → 1 ≤ k →
    dem3Loop resp ofile ext 5 k counter fs = (.fail (.http code) fs, retrySeq (k - 1)) := by
  intro k
  induction k with
  | zero => intro counter fs _ h1; omega
  | succ k ih =>
      intro counter fs hsum _
      rw [dem3Loop, hresp (counter + 1)]
      dsimp only
      rw [if_neg (by omega : ¬ code = 404)]
      rcases Nat.eq_zero_or_pos k with hk | hk
      · subst hk
        rw [if_neg (by omega : ¬ (500 ≤ code ∧ code < 600 ∧ counter + 1 ≤ 5))]
        rfl
      · rw [if_pos ⟨h5, h6, by omega⟩, ih (counter + 1) fs (by omega) hk]
        rcases k with _ | j
        · omega
        · rfl

theorem srtmLoop_5xx_then_ok {resp : ℕ → Attempt} {ofile : String}
    {ext : List String} {code : ℕ} (h5 : 500 ≤ code) (h6 : code < 600)
    (hresp : ∀ i, i ≤ 5 → resp i = .http code) (hok : resp 6 = .ok false) :
    ∀ (k counter : ℕ) (fs : List String), counter + k = 6 → 1 ≤ k →
    srtmLoop resp ofile ext 5 k counter fs =
      (.done (ext ++ ofile :: fs), retrySeq (k - 1)) := by
  intro k
  induction k with
  | zero => intro counter fs _ h1; omega
  | succ k ih =>
      intro counter fs hsum _
      rcases Nat.eq_zero_or_pos k with hk | hk
      · subst hk
        have h6' : counter + 1 = 6 := by omega
        rw [srtmLoop, h6', hok]
        rfl
      · rw [srtmLoop, hresp (counter + 1) (by omega)]
        dsimp only
        rw [if_neg (by omega : ¬ code = 404)]
        rw [if_pos ⟨h5, h6, by omega⟩, ih (counter + 1) fs (by omega) hk]
        rcases k with _ | j
        · omega
        · rfl

/-- C3.  Transient 5xx failures are retried with a fixed 10-second
sleep between transfer attempts, up to `retry_max = 5` retries (six
transfers in all); exhausting the bound re-raises the `HTTPError`
(fatal), it neither keeps retrying nor returns absence.  Both per-tile
downloaders behave identically; and a transfer that succeeds on the
last allowed retry yields the tile normally. -/
theorem c3_retry_bound (fs : List String) (resp : ℕ → Attempt)
    (zone outdir : String) (code : ℕ) (h5 : 500 ≤ code) (h6 : code < 600) :
    ((pathJoin outdir ("srtm_" ++ zone ++ ".zip") ∉ fs) → (∀ i, resp i = .http code) →
      _download_srtm_file_unlocked fs resp zone outdir =
        ⟨.error (.http code), fs, retrySeq 5⟩) ∧
    ((pathJoin outdir (zone ++ ".tif") ∉ fs) →
      (pathJoin outdir ("dem3_" ++ zone ++ ".zip") ∉ fs) →
      (∀ i, resp i = .http code) →
      _download_dem3_viewpano_unlocked fs resp [] zone outdir =
        ⟨.error (.http code), fs, retrySeq 5⟩) ∧
    ((pathJoin outdir ("srtm_" ++ zone ++ ".zip") ∉ fs) →
      (∀ i, i ≤ 5 → resp i = .http code) → resp 6 = .ok false →
      _download_srtm_file_unlocked fs resp zone outdir =
        ⟨.ok (some (pathJoin outdir ("srtm_" ++ zone ++ ".tif"))),
         pathJoin outdir ("srtm_" ++ zone ++ ".tif") ::
           pathJoin outdir ("srtm_" ++ zone ++ ".zip") :: fs, retrySeq 5⟩) := by
  refine ⟨?_, ?_, ?_⟩
  · intro hzip hresp
    rw [_download_srtm_file_unlocked]
    rw [if_neg (by simpa using hzip)]
    rw [srtmLoop_all5xx h5 h6 hresp 6 0 fs (by omega) (by omega)]
  · intro htif hzip hresp
    rw [_download_dem3_viewpano_unlocked]
    rw [if_neg (by simpa using htif)]
    rw [if_neg (by simpa using hzip)]
    rw [dem3Loop_all5xx h5 h6 hresp 6 0 fs (by omega) (by omega)]
  · intro hzip hresp hok
    rw [_download_srtm_file_unlocked]
    rw [if_neg (by simpa using hzip)]
    rw [srtmLoop_5xx_then_ok h5 h6 hresp hok 6 0 fs (by omega) (by omega)]
    simp

theorem c3_witness :
    (500 ≤ 503 ∧ 503 < 600) ∧
    _download_srtm_file_unlocked [] (fun _ => .http 503) "39_03" "topo" =
      ⟨.error (.http 503), [], retrySeq 5⟩ :=
  ⟨⟨by norm_num, by norm_num⟩,
   (c3_retry_bound [] (fun _ => .http 503) "39_03" "topo" 503 (by norm_num)
     (by norm_num)).1 (by simp) (fun _ => rfl)⟩

theorem srtmLoop_done {resp : ℕ → Attempt} {ofile : String} {ext : List String}
    {retryMax : ℕ} :
    ∀ (fuel counter : ℕ) (fs fs' : List String) (evs : List Ev),
    srtmLoop resp ofile ext retryMax fuel counter fs = (.done fs', evs) →
    fs' = ext ++ ofile :: fs := by
  intro fuel
  induction fuel with
  | zero => intro counter fs fs' evs h; simp [srtmLoop] at h
  | succ fuel ih =>
      intro counter fs fs' evs h
      rw [srtmLoop] at h
      cases hr : resp (counter + 1) with
      | ok corrupt =>
          rw [hr] at h
          by_cases hc : corrupt = true
          · simp [hc] at h
          · simp [hc] at h
            exact h.1.symm
      | http code =>
          rw [hr] at h
          dsimp only at h
          by_cases h404 : code = 404
          · simp [h404] at h
          · rw [if_neg h404] at h
            by_cases hretry : 500 ≤ code ∧ code < 600 ∧ counter + 1 ≤ retryMax
            · rw [if_pos hretry] at h
              rcases hrec : srtmLoop resp ofile ext retryMax fuel (counter + 1) fs
                with ⟨lr, evs2⟩
              rw [hrec] at h
              simp at h
              obtain ⟨h1, _⟩ := h
              exact ih (counter + 1) fs fs' evs2 (by rw [hrec, h1])
            · rw [if_neg hretry] at h
              simp at h
      | tooShort => rw [hr] at h; simp at h

/-- A cache hit of the SRTM downloader: archive and tif both present. -/
theorem srtm_cached (fs2 : List String) (resp2 : ℕ → Attempt) (zone outdir : String)
    (hz : pathJoin outdir ("srtm_" ++ zone ++ ".zip") ∈ fs2)
    (ht : pathJoin outdir ("srtm_" ++ zone ++ ".tif") ∈ fs2) :
    _download_srtm_file_unlocked fs2 resp2 zone outdir =
      ⟨.ok (some (pathJoin outdir ("srtm_" ++ zone ++ ".tif"))), fs2, []⟩ := by
  rw [_download_srtm_file_unlocked]
  rw [if_pos hz, if_pos ht]

/-- A cache hit of the DEM3 downloader: the final tif is present. -/
theorem dem3_cached (fs2 : List String) (resp2 : ℕ → Attempt)
    (hgts2 : List String) (zone outdir : String)
    (ht : pathJoin outdir (zone ++ ".tif") ∈ fs2) :
    _download_dem3_viewpano_unlocked fs2 resp2 hgts2 zone outdir =
      ⟨.ok (some (pathJoin outdir (zone ++ ".tif"))), fs2, []⟩ := by
  rw [_download_dem3_viewpano_unlocked]
  rw [if_pos ht]

/-- After a successful SRTM tile acquisition, the returned path is the
tif, and both the archive and the tif exist in the resulting file
system. -/
theorem srtm_success_state {fs : List String} {resp : ℕ → Attempt}
    {zone outdir p : String}
    (hres : (_download_srtm_file_unlocked fs resp zone outdir).res = .ok (some p)) :
    p = pathJoin outdir ("srtm_" ++ zone ++ ".tif") ∧
    pathJoin outdir ("srtm_" ++ zone ++ ".zip") ∈
      (_download_srtm_file_unlocked fs resp zone outdir).fs ∧
    p ∈ (_download_srtm_file_unlocked fs resp zone outdir).fs := by
  rcases hcall : _download_srtm_file_unlocked fs resp zone outdir with ⟨res1, fs1, evs1⟩
  rw [hcall] at hres
  dsimp only at hres ⊢
  subst hres
  rw [_download_srtm_file_unlocked] at hcall
  by_cases hz : pathJoin outdir ("srtm_" ++ zone ++ ".zip") ∈ fs
  · rw [if_pos hz] at hcall
    by_cases ht : pathJoin outdir ("srtm_" ++ zone ++ ".tif") ∈ fs
    · rw [if_pos ht] at hcall
      simp only [DLOut.mk.injEq] at hcall
      obtain ⟨h1, h2, _⟩ := hcall
      simp only [Except.ok.injEq, Option.some.injEq] at h1
      subst h1 h2
      exact ⟨rfl, hz, ht⟩
    · rw [if_neg ht] at hcall
      simp only [DLOut.mk.injEq] at hcall
      exact absurd hcall.1 (by simp)
  · rw [if_neg hz] at hcall
    rcases hloop : srtmLoop resp (pathJoin outdir ("srtm_" ++ zone ++ ".zip"))
        [pathJoin outdir ("srtm_" ++ zone ++ ".tif")] 5 6 0 fs with ⟨lr, evs⟩
    rw [hloop] at hcall
    cases lr with
    | done fsd =>
        have hfsd := srtmLoop_done 6 0 fs fsd evs hloop
        dsimp only at hcall
        by_cases ht : pathJoin outdir ("srtm_" ++ zone ++ ".tif") ∈ fsd
        · rw [if_pos ht] at hcall
          simp only [DLOut.mk.injEq] at hcall
          obtain ⟨h1, h2, _⟩ := hcall
          simp only [Except.ok.injEq, Option.some.injEq] at h1
          subst h1 h2
          refine ⟨rfl, ?_, ht⟩
          rw [hfsd]
          simp
        · rw [if_neg ht] at hcall
          simp only [DLOut.mk.injEq] at hcall
          exact absurd hcall.1 (by simp)
    | ocean fsd =>
        simp only [DLOut.mk.injEq] at hcall
        exact absurd hcall.1 (by simp)
    | fail e fsd =>
        simp only [DLOut.mk.injEq] at hcall
        exact absurd hcall.1 (by simp)

/-- After a successful DEM3 tile acquisition, the returned path is the
zone tif and it exists in the resulting file system. -/
theorem dem3_success_state {fs : List String} {resp : ℕ → Attempt}
    {hgts : List String} {zone outdir p : String}
    (hres : (_download_dem3_viewpano_unlocked fs resp hgts zone outdir).res =
      .ok (some p)) :
    p = pathJoin outdir (zone ++ ".tif") ∧
    p ∈ (_download_dem3_viewpano_unlocked fs resp hgts zone outdir).fs := by
  rcases hcall : _download_dem3_viewpano_unlocked fs resp hgts zone outdir
    with ⟨res1, fs1, evs1⟩
  rw [hcall] at hres
  dsimp only at hres ⊢
  subst hres
  rw [_download_dem3_viewpano_unlocked] at hcall
  by_cases ht : pathJoin outdir (zone ++ ".tif") ∈ fs
  · rw [if_pos ht] at hcall
    simp only [DLOut.mk.injEq] at hcall
    obtain ⟨h1, h2, _⟩ := hcall
    simp only [Except.ok.injEq, Option.some.injEq] at h1
    subst h1 h2
    exact ⟨rfl, ht⟩
  · rw [if_neg ht] at hcall
    rcases hstep : (if pathJoin outdir ("dem3_" ++ zone ++ ".zip") ∈ fs then
        (LoopRes.done fs, ([] : List Ev))
      else dem3Loop resp (pathJoin outdir ("dem3_" ++ zone ++ ".zip")) hgts 5 6 0 fs)
      with ⟨lr, evs⟩
    rw [hstep] at hcall
    cases lr with
    | done fsd =>
        dsimp only at hcall
        by_cases hglob : (if zone ∈ DEM3REG.map Prod.fst then globHgt fsd outdir
            else globHgt fsd
              (if zone.data.length = 4 ∧ zone.data.head? = some 'S' then
                pathJoin outdir (String.mk (zone.data.drop 1))
              else pathJoin outdir zone)).isEmpty
        · rw [if_pos hglob] at hcall
          simp only [DLOut.mk.injEq] at hcall
          exact absurd hcall.1 (by simp)
        · rw [if_neg hglob] at hcall
          simp only [DLOut.mk.injEq] at hcall
          obtain ⟨h1, h2, _⟩ := hcall
          simp only [Except.ok.injEq, Option.some.injEq] at h1
          subst h1
          refine ⟨rfl, ?_⟩
          rw [← h2]
          simp
    | ocean fsd =>
        simp only [DLOut.mk.injEq] at hcall
        exact absurd hcall.1 (by simp)
    | fail e fsd =>
        simp only [DLOut.mk.injEq] at hcall
        exact absurd hcall.1 (by simp)

/-- C5.  Per-tile acquisition is idempotent: once a call has
returned a tile path, a repeated call on the resulting file system
(with any network oracle and any archive contents) returns the same
path from the locked existence check, with an empty event trace — zero
transfers, zero sleeps.  Holds for both the SRTM and the DEM3
downloader. -/
theorem c5_idempotent (fs : List String) (resp resp2 : ℕ → Attempt)
    (hgts hgts2 : List String) (zone outdir p : String) :
    ((_download_srtm_file_unlocked fs resp zone outdir).res = .ok (some p) →
      _download_srtm_file_unlocked (_download_srtm_file_unlocked fs resp zone outdir).fs
          resp2 zone outdir =
        ⟨.ok (some p), (_download_srtm_file_unlocked fs resp zone outdir).fs, []⟩) ∧
    ((_download_dem3_viewpano_unlocked fs resp hgts zone outdir).res = .ok (some p) →
      _download_dem3_viewpano_unlocked
          (_download_dem3_viewpano_unlocked fs resp hgts zone outdir).fs
          resp2 hgts2 zone outdir =
        ⟨.ok (some p),
         (_download_dem3_viewpano_unlocked fs resp hgts zone outdir).fs, []⟩) := by
  constructor
  · intro hres
    obtain ⟨hp, hz1, ht1⟩ := srtm_success_state hres
    subst hp
    exact srtm_cached _ resp2 zone outdir hz1 ht1
  · intro hres
    obtain ⟨hp, ht1⟩ := dem3_success_state hres
    subst hp
    exact dem3_cached _ resp2 hgts2 zone outdir ht1

theorem c5_witness :
    (_download_srtm_file_unlocked [] (fun _ => .ok false) "39_03" "topo").res =
      .ok (some "topo/srtm_39_03.tif") ∧
    _download_srtm_file_unlocked
        (_download_srtm_file_unlocked [] (fun _ => .ok false) "39_03" "topo").fs
        (fun _ => .http 503) "39_03" "topo" =
      ⟨.ok (some "topo/srtm_39_03.tif"),
       (_download_srtm_file_unlocked [] (fun _ => .ok false) "39_03" "topo").fs, []⟩ :=
  ⟨by decide,
   (c5_idempotent [] (fun _ => .ok false) (fun _ => .http 503) [] []
     "39_03" "topo" "topo/srtm_39_03.tif").1 (by decide)⟩

/-- C8 (counterexample).  A corrupt archive on the very first SRTM
tile fetch is answered with `None` (tile absence) after exactly one
transfer: there is no automatic re-fetch and no fatal error, so the
claimed one-re-fetch-then-fatal behavior does not hold for tile
acquisition. -/
theorem c8_counterexample :
    _download_srtm_file_unlocked [] (fun _ => .ok true) "01_02" "topo" =
      ⟨.ok none, ["topo/srtm_01_02.zip"], [.fetch]⟩ := by decide

/-- C8 (amended).  In the per-tile downloaders (SRTM and DEM3) a
corrupt downloaded archive is treated as tile absence: the function
returns `None` immediately after the single transfer, without
re-fetching and without raising.  (The one-automatic-re-fetch-then-
fatal behavior exists only in the GitHub sample-data downloader, which
is outside tile acquisition.) -/
theorem c8_corrupt_archive_is_absence (fs : List String) (resp : ℕ → Attempt)
    (hgts : List String) (zone outdir : String) :
    (pathJoin outdir ("srtm_" ++ zone ++ ".zip") ∉ fs → resp 1 = .ok true →
      _download_srtm_file_unlocked fs resp zone outdir =
        ⟨.ok none, pathJoin outdir ("srtm_" ++ zone ++ ".zip") :: fs, [.fetch]⟩) ∧
    (pathJoin outdir (zone ++ ".tif") ∉ fs →
      pathJoin outdir ("dem3_" ++ zone ++ ".zip") ∉ fs → resp 1 = .ok true →
      _download_dem3_viewpano_unlocked fs resp hgts zone outdir =
        ⟨.ok none, pathJoin outdir ("dem3_" ++ zone ++ ".zip") :: fs, [.fetch]⟩) := by
  constructor
  · intro hzip hresp
    rw [_download_srtm_file_unlocked, if_neg (by simpa using hzip)]
    rw [srtmLoop, hresp]
    rfl
  · intro htif hzip hresp
    rw [_download_dem3_viewpano_unlocked, if_neg (by simpa using htif)]
    rw [if_neg (by simpa using hzip)]
    rw [dem3Loop, hresp]
    rfl

theorem c8_witness :
    ("x" ∉ ([] : List String)) ∧
    _download_dem3_viewpano_unlocked [] (fun _ => .ok true) [] "R02" "topo" =
      ⟨.ok none, ["topo/dem3_R02.zip"], [.fetch]⟩ :=
  ⟨by decide,
   (c8_corrupt_archive_is_absence [] (fun _ => .ok true) [] "R02" "topo").2
     (by decide) (by decide) rfl⟩

/-- C1.  Not-found tile fetches do return absence: a 404 on the
first transfer makes both per-tile downloaders return `None` without
raising (first two conjuncts).  But the overall resolution does *not*
succeed when another tile is present: `get_topo_file` calls
`download_srtm_file(z)` (line 1050) although the module defines
`download_srtm_file(zone, outdir)`, so the extent `lon=[10,12]`,
`lat=[46,47]` (zones `38_03`, `39_03`, with every file present as far
as the environment is concerned) dies with a `TypeError` at the first
download call instead of returning the present tile. -/
theorem c1_notfound_absent_but_resolution_crashes :
    (_download_srtm_file_unlocked [] (fun _ => .http 404) "38_03" "topo" =
      ⟨.ok none, [], [.fetch]⟩) ∧
    (_download_dem3_viewpano_unlocked [] (fun _ => .http 404) [] "R01" "topo" =
      ⟨.ok none, [], [.fetch]⟩) ∧
    (get_topo_file ⟨Option.none, "topo", fun _ => true, fun _ => ""⟩
        (10, 12) (46, 47) Option.none .none =
      ⟨.error .typeErrArity, ["SRTM"]⟩) := by
  refine ⟨by decide, by decide, by decide⟩

theorem dem3RegLookup_append (lonRan latRan : ℚ × ℚ)
    (pre rest : List (String × Box4))
    (hpre : ∀ r ∈ pre, ¬ inBox lonRan latRan r.2) :
    dem3RegLookup lonRan latRan (pre ++ rest) = dem3RegLookup lonRan latRan rest := by
  induction pre with
  | nil => rfl
  | cons r t ih =>
      rcases r with ⟨f, b⟩
      rw [List.cons_append, dem3RegLookup,
        if_neg (hpre (f, b) (List.mem_cons_self _ _))]
      exact ih fun q hq => hpre q (List.mem_cons_of_mem _ hq)

/-- C6.  If the extent is contained in a special region of the
table (the first containing entry `(f, b)`, earlier entries not
containing it), `dem3_viewpano_zone` answers from the table immediately,
bypassing the lettered-grid arithmetic: the listed irregular sub-case
boxes return their explicit override lists (in the order the code tests
them), and otherwise the region's own zone list `[f]` is returned. -/
theorem c6_special_regions (lonRan latRan : ℚ × ℚ) (f : String) (b : Box4)
    (pre post : List (String × Box4))
    (hpre : ∀ r ∈ pre, ¬ inBox lonRan latRan r.2)
    (hb : inBox lonRan latRan b) :
    (inBox lonRan latRan ⟨-91, -90, -72, -68⟩ →
      dem3_viewpano_zone lonRan latRan (pre ++ (f, b) :: post) = ["SR15"]) ∧
    (¬ inBox lonRan latRan ⟨-91, -90, -72, -68⟩ →
      inBox lonRan latRan ⟨-47, -43, -61, -60⟩ →
      dem3_viewpano_zone lonRan latRan (pre ++ (f, b) :: post) = ["SP23"]) ∧
    (¬ inBox lonRan latRan ⟨-91, -90, -72, -68⟩ →
      ¬ inBox lonRan latRan ⟨-47, -43, -61, -60⟩ →
      inBox lonRan latRan ⟨162, 165, -68, -66⟩ →
      dem3_viewpano_zone lonRan latRan (pre ++ (f, b) :: post) = ["SQ58"]) ∧
    (¬ inBox lonRan latRan ⟨-91, -90, -72, -68⟩ →
      ¬ inBox lonRan latRan ⟨-47, -43, -61, -60⟩ →
      ¬ inBox lonRan latRan ⟨162, 165, -68, -66⟩ →
      inBox lonRan latRan ⟨-66, -60, 80, 83⟩ →
      dem3_viewpano_zone lonRan latRan (pre ++ (f, b) :: post) = ["U20"]) ∧
    (¬ inBox lonRan latRan ⟨-91, -90, -72, -68⟩ →
      ¬ inBox lonRan latRan ⟨-47, -43, -61, -60⟩ →
      ¬ inBox lonRan latRan ⟨162, 165, -68, -66⟩ →
      ¬ inBox lonRan latRan ⟨-66, -60, 80, 83⟩ →
      inBox lonRan latRan ⟨-60, -54, 80, 83⟩ →
      dem3_viewpano_zone lonRan latRan (pre ++ (f, b) :: post) = ["U21"]) ∧
    (¬ inBox lonRan latRan ⟨-91, -90, -72, -68⟩ →
      ¬ inBox lonRan latRan ⟨-47, -43, -61, -60⟩ →
      ¬ inBox lonRan latRan ⟨162, 165, -68, -66⟩ →
      ¬ inBox lonRan latRan ⟨-66, -60, 80, 83⟩ →
      ¬ inBox lonRan latRan ⟨-60, -54, 80, 83⟩ →
      inBox lonRan latRan ⟨-54, -48, 80, 83⟩ →
      dem3_viewpano_zone lonRan latRan (pre ++ (f, b) :: post) = ["U22"]) ∧
    (¬ inBox lonRan latRan ⟨-91, -90, -72, -68⟩ →
      ¬ inBox lonRan latRan ⟨-47, -43, -61, -60⟩ →
      ¬ inBox lonRan latRan ⟨162, 165, -68, -66⟩ →
      ¬ inBox lonRan latRan ⟨-66, -60, 80, 83⟩ →
      ¬ inBox lonRan latRan ⟨-60, -54, 80, 83⟩ →
      ¬ inBox lonRan latRan ⟨-54, -48, 80, 83⟩ →
      dem3_viewpano_zone lonRan latRan (pre ++ (f, b) :: post) = [f]) := by
  have hred : dem3_viewpano_zone lonRan latRan (pre ++ (f, b) :: post) =
      dem3Subcases lonRan latRan f := by
    rw [dem3_viewpano_zone, dem3RegLookup_append lonRan latRan pre _ hpre,
      dem3RegLookup, if_pos hb]
  rw [hred]
  unfold dem3Subcases
  refine ⟨fun h1 => by rw [if_pos h1],
    fun h1 h2 => by rw [if_neg h1, if_pos h2],
    fun h1 h2 h3 => by rw [if_neg h1, if_neg h2, if_pos h3],
    fun h1 h2 h3 h4 => by rw [if_neg h1, if_neg h2, if_neg h3, if_pos h4],
    fun h1 h2 h3 h4 h5 => by
      rw [if_neg h1, if_neg h2, if_neg h3, if_neg h4, if_pos h5],
    fun h1 h2 h3 h4 h5 h6 => by
      rw [if_neg h1, if_neg h2, if_neg h3, if_neg h4, if_neg h5, if_pos h6],
    fun h1 h2 h3 h4 h5 h6 => by
      rw [if_neg h1, if_neg h2, if_neg h3, if_neg h4, if_neg h5, if_neg h6]⟩

theorem c6_witness :
    inBox (-20, -15) (64, 65) ⟨-25, -12, 63, 67⟩ ∧
    dem3_viewpano_zone (-20, -15) (64, 65) DEM3REG = ["ISL"] :=
  ⟨by decide,
   (c6_special_regions (-20, -15) (64, 65) "ISL" ⟨-25, -12, 63, 67⟩ []
     [("SVALBARD", ⟨10, 34, 76, 81⟩),
      ("JANMAYEN", ⟨-10, -7, 70, 72⟩),
      ("FJ", ⟨36, 66, 79, 82⟩),
      ("FAR", ⟨-8, -6, 61, 63⟩),
      ("BEAR", ⟨18, 20, 74, 75⟩),
      ("SHL", ⟨-3, 0, 60, 61⟩)]
     (by intro r hr; simp at hr) (by decide)).2.2.2.2.2.2
     (by decide) (by decide) (by decide) (by decide) (by decide) (by decide)⟩

/-! ## The degree-grid tile indices as intervals (for C4 and C7)

`srtmTileX`/`srtmTileY` are monotone step functions whose consecutive
sample jumps are at most one tile, so the set of tiles hit by the
densified axis is exactly the integer interval between the tiles of the
two endpoints. -/

theorem srtmTileX_mono {x y : ℚ} (h : x ≤ y) : srtmTileX x ≤ srtmTileX y := by
  unfold srtmTileX
  rw [ratCeil_eq_ceil, ratCeil_eq_ceil]
  apply Int.ceil_mono
  have h5 : (0:ℚ) < 5 := by norm_num
  rw [div_le_div_iff_of_pos_right h5]
  linarith

theorem srtmTileY_anti {x y : ℚ} (h : x ≤ y) : srtmTileY y ≤ srtmTileY x := by
  unfold srtmTileY
  rw [ratCeil_eq_ceil, ratCeil_eq_ceil]
  apply Int.ceil_mono
  have hx : (y - 60) / (-5) = (60 - y) / 5 := by ring
  have hy : (x - 60) / (-5) = (60 - x) / 5 := by ring
  rw [hx, hy, div_le_div_iff_of_pos_right (by norm_num : (0:ℚ) < 5)]
  linarith

theorem srtmTileX_jump {x d : ℚ} (_h0 : 0 ≤ d) (h5 : d ≤ 5) :
    srtmTileX (x + d) ≤ srtmTileX x + 1 := by
  unfold srtmTileX
  rw [ratCeil_eq_ceil, ratCeil_eq_ceil]
  have h1 : (x + d - -180) / 5 = (x - -180) / 5 + d / 5 := by ring
  have h2 : d / 5 ≤ 1 := by linarith [(div_le_one (by norm_num : (0:ℚ) < 5)).mpr h5]
  calc ⌈(x + d - -180) / 5⌉ = ⌈(x - -180) / 5 + d / 5⌉ := by rw [h1]
    _ ≤ ⌈(x - -180) / 5 + 1⌉ := Int.ceil_mono (by linarith)
    _ = ⌈(x - -180) / 5⌉ + 1 := Int.ceil_add_one _

theorem srtmTileY_jump {x d : ℚ} (_h0 : 0 ≤ d) (h5 : d ≤ 5) :
    srtmTileY x - 1 ≤ srtmTileY (x + d) := by
  unfold srtmTileY
  rw [ratCeil_eq_ceil, ratCeil_eq_ceil]
  have h1 : (x + d - 60) / (-5) = (x - 60) / (-5) - d / 5 := by ring
  have h2 : d / 5 ≤ 1 := by linarith [(div_le_one (by norm_num : (0:ℚ) < 5)).mpr h5]
  have h3 : (x - 60) / (-5) - 1 ≤ (x - 60) / (-5) - d / 5 := by linarith
  calc ⌈(x - 60) / (-5)⌉ - 1 = ⌈(x - 60) / (-5) - 1⌉ := by
        rw [show ((1:ℚ)) = ((1:ℤ) : ℚ) by norm_num, Int.ceil_sub_int]
    _ ≤ ⌈(x - 60) / (-5) - d / 5⌉ := Int.ceil_mono h3
    _ = ⌈(x + d - 60) / (-5)⌉ := by rw [h1]

/-- Discrete intermediate value property: a sequence of integers that
never jumps up by more than one attains every value between its first
and last entries. -/
theorem exists_eq_of_steps (f : ℕ → ℤ) :
    ∀ N : ℕ, (∀ i, i < N → f (i + 1) ≤ f i + 1) → ∀ k : ℤ, f 0 ≤ k → k ≤ f N →
    ∃ i, i ≤ N ∧ f i = k := by
  intro N
  induction N with
  | zero => intro _ k h0 hN; exact ⟨0, Nat.le_refl 0, le_antisymm hN h0 ▸ rfl⟩
  | succ N ih =>
      intro hstep k h0 hN
      by_cases hk : k ≤ f N
      · obtain ⟨i, hi, he⟩ := ih (fun i hi => hstep i (by omega)) k h0 hk
        exact ⟨i, by omega, he⟩
      · push_neg at hk
        have h1 := hstep N (by omega)
        exact ⟨N + 1, Nat.le_refl _, by omega⟩

theorem nCover_cast {mi ma : ℚ} (h : mi ≤ ma) :
    ma - mi + 2 ≤ ((nCover mi ma : ℕ) : ℚ) - 1 := by
  unfold nCover
  rw [ratCeil_eq_ceil]
  have h0 : (0:ℤ) ≤ ⌈ma - mi + 3⌉ := Int.ceil_nonneg (by linarith)
  have hcast : (((⌈ma - mi + 3⌉).toNat : ℕ) : ℚ) = ((⌈ma - mi + 3⌉ : ℤ) : ℚ) := by
    rw [← Int.cast_natCast, Int.toNat_of_nonneg h0]
  rw [hcast]
  have hle := Int.le_ceil (ma - mi + 3)
  linarith

theorem srtm_lon_image {lonRan : ℚ × ℚ} {z : ℤ} :
    (∃ x ∈ srtmLonSamples lonRan, srtmTileX x = z) ↔
      srtmTileX (min lonRan.1 lonRan.2) ≤ z ∧
      z ≤ srtmTileX (max lonRan.1 lonRan.2) := by
  set mi := min lonRan.1 lonRan.2 with hmi
  set ma := max lonRan.1 lonRan.2 with hma
  have hmm : mi ≤ ma := min_le_max
  set n := nCover mi ma with hn
  have h3 : 3 ≤ n := three_le_nCover hmm
  have hsamples : srtmLonSamples lonRan = linspace mi ma n := rfl
  constructor
  · rintro ⟨x, hx, rfl⟩
    rw [hsamples] at hx
    obtain ⟨h1, h2⟩ := mem_linspace_bounds hmm hx
    exact ⟨srtmTileX_mono h1, srtmTileX_mono h2⟩
  · rintro ⟨h1, h2⟩
    have hd : ma - mi + 2 ≤ ((n:ℚ) - 1) := nCover_cast hmm
    have hdpos : (0:ℚ) < (n:ℚ) - 1 := by linarith
    have hgap0 : 0 ≤ (ma - mi) / ((n:ℚ) - 1) :=
      div_nonneg (by linarith) (le_of_lt hdpos)
    have hgap5 : (ma - mi) / ((n:ℚ) - 1) ≤ 5 := by
      rw [div_le_iff₀ hdpos]
      nlinarith
    set g : ℕ → ℚ := fun i => mi + (ma - mi) * (i : ℚ) / ((n:ℚ) - 1) with hg
    have hgsucc : ∀ i : ℕ, g (i + 1) = g i + (ma - mi) / ((n:ℚ) - 1) := by
      intro i
      rw [hg]
      dsimp only
      push_cast
      field_simp
      ring
    have hg0 : g 0 = mi := by rw [hg]; norm_num
    have hgN : g (n - 1) = ma := by
      rw [hg]
      dsimp only
      have hc : ((n - 1 : ℕ) : ℚ) = (n : ℚ) - 1 := by
        push_cast [Nat.cast_sub (by omega : 1 ≤ n)]
        ring
      rw [hc, mul_div_assoc, div_self (ne_of_gt hdpos)]
      ring
    obtain ⟨i, hiN, hfi⟩ := exists_eq_of_steps (fun i => srtmTileX (g i)) (n - 1)
      (fun i _ => by
        dsimp only
        rw [hgsucc]
        exact srtmTileX_jump hgap0 hgap5) z
      (by dsimp only; rw [hg0]; exact h1)
      (by dsimp only; rw [hgN]; exact h2)
    refine ⟨g i, ?_, hfi⟩
    rw [hsamples, mem_linspace_iff]
    exact ⟨i, by omega, rfl⟩

theorem srtm_lat_image {latRan : ℚ × ℚ} {z : ℤ} :
    (∃ x ∈ srtmLatSamples latRan, srtmTileY x = z) ↔
      srtmTileY (max latRan.1 latRan.2) ≤ z ∧
      z ≤ srtmTileY (min latRan.1 latRan.2) := by
  set mi := min latRan.1 latRan.2 with hmi
  set ma := max latRan.1 latRan.2 with hma
  have hmm : mi ≤ ma := min_le_max
  set n := nCover mi ma with hn
  have h3 : 3 ≤ n := three_le_nCover hmm
  have hsamples : srtmLatSamples latRan = linspace mi ma n := rfl
  constructor
  · rintro ⟨x, hx, rfl⟩
    rw [hsamples] at hx
    obtain ⟨h1, h2⟩ := mem_linspace_bounds hmm hx
    exact ⟨srtmTileY_anti h2, srtmTileY_anti h1⟩
  · rintro ⟨h1, h2⟩
    have hd : ma - mi + 2 ≤ ((n:ℚ) - 1) := nCover_cast hmm
    have hdpos : (0:ℚ) < (n:ℚ) - 1 := by linarith
    have hgap0 : 0 ≤ (ma - mi) / ((n:ℚ) - 1) :=
      div_nonneg (by linarith) (le_of_lt hdpos)
    have hgap5 : (ma - mi) / ((n:ℚ) - 1) ≤ 5 := by
      rw [div_le_iff₀ hdpos]
      nlinarith
    set g : ℕ → ℚ := fun i => mi + (ma - mi) * (i : ℚ) / ((n:ℚ) - 1) with hg
    have hgsucc : ∀ i : ℕ, g (i + 1) = g i + (ma - mi) / ((n:ℚ) - 1) := by
      intro i
      rw [hg]
      dsimp only
      push_cast
      field_simp
      ring
    have hg0 : g 0 = mi := by rw [hg]; norm_num
    have hgN : g (n - 1) = ma := by
      rw [hg]
      dsimp only
      have hc : ((n - 1 : ℕ) : ℚ) = (n : ℚ) - 1 := by
        push_cast [Nat.cast_sub (by omega : 1 ≤ n)]
        ring
      rw [hc, mul_div_assoc, div_self (ne_of_gt hdpos)]
      ring
    obtain ⟨i, hiN, hfi⟩ := exists_eq_of_steps (fun i => -srtmTileY (g i)) (n - 1)
      (fun i _ => by
        dsimp only
        rw [hgsucc]
        have := srtmTileY_jump (x := g i) hgap0 hgap5
        omega) (-z)
      (by dsimp only; rw [hg0]; omega)
      (by dsimp only; rw [hgN]; omega)
    refine ⟨g i, ?_, by omega⟩
    rw [hsamples, mem_linspace_iff]
    exact ⟨i, by omega, rfl⟩

theorem mem_srtmZoneList_iff {lonRan latRan : ℚ × ℚ} {s : String} :
    s ∈ srtmZoneList lonRan latRan ↔
      ∃ zx zy : ℤ,
        (srtmTileX (min lonRan.1 lonRan.2) ≤ zx ∧
          zx ≤ srtmTileX (max lonRan.1 lonRan.2)) ∧
        (srtmTileY (max latRan.1 latRan.2) ≤ zy ∧
          zy ≤ srtmTileY (min latRan.1 latRan.2)) ∧
        s = pad0 2 zx ++ "_" ++ pad0 2 zy := by
  unfold srtmZoneList
  rw [mem_pysorted, List.mem_dedup, List.mem_flatMap]
  constructor
  · rintro ⟨lon, hlon, hs⟩
    rw [List.mem_map] at hs
    obtain ⟨lat, hlat, rfl⟩ := hs
    exact ⟨srtmTileX lon, srtmTileY lat, srtm_lon_image.mp ⟨lon, hlon, rfl⟩,
      srtm_lat_image.mp ⟨lat, hlat, rfl⟩, rfl⟩
  · rintro ⟨zx, zy, hx, hy, rfl⟩
    obtain ⟨lon, hlon, hlx⟩ := srtm_lon_image.mpr hx
    obtain ⟨lat, hlat, hly⟩ := srtm_lat_image.mpr hy
    exact ⟨lon, hlon, List.mem_map.mpr ⟨lat, hlat, by rw [srtmZoneName, hlx, hly]⟩⟩

/-- When the whole (densified) latitude extent stays below 60°, the
`assert dy < 0` guard passes and `srtm_zone` returns its zone list. -/
theorem srtm_zone_eq_some {lonRan latRan : ℚ × ℚ}
    (hlat : max latRan.1 latRan.2 < 60) :
    srtm_zone lonRan latRan = some (srtmZoneList lonRan latRan) := by
  unfold srtm_zone
  rw [if_pos]
  right
  intro lat hl
  have hb := (mem_linspace_bounds (min_le_max
    (a := latRan.1) (b := latRan.2)) hl).2
  linarith

theorem dedup_const {l : List String} {a : String} (hne : l ≠ [])
    (hall : ∀ x ∈ l, x = a) : l.dedup = [a] := by
  induction l with
  | nil => exact absurd rfl hne
  | cons b t ih =>
      have hb : b = a := hall b (List.mem_cons_self _ _)
      cases t with
      | nil => simp [hb]
      | cons c u =>
          have ht : (c :: u).dedup = [a] :=
            ih (by simp) fun x hx => hall x (List.mem_cons_of_mem _ hx)
          have hca : c = a := hall c (by simp)
          have hmem : b ∈ c :: u := by
            rw [hb, ← hca]
            exact List.mem_cons_self _ _
          rw [List.dedup_cons_of_mem hmem, ht]

/-- C4.  An extent contained in a single 5°×5° degree-grid cell
(both longitude endpoints in the same column, both latitude endpoints
in the same row, staying below the 60° guard) yields exactly one
ZoneID: the singleton list of that cell's zero-padded `xx_yy` name —
the densified sample-point union degenerates to one tile. -/
theorem c4_single_cell (lonRan latRan : ℚ × ℚ)
    (hx : srtmTileX (min lonRan.1 lonRan.2) = srtmTileX (max lonRan.1 lonRan.2))
    (hy : srtmTileY (min latRan.1 latRan.2) = srtmTileY (max latRan.1 latRan.2))
    (hlat : max latRan.1 latRan.2 < 60) :
    srtm_zone lonRan latRan =
      some [pad0 2 (srtmTileX (min lonRan.1 lonRan.2)) ++ "_" ++
            pad0 2 (srtmTileY (min latRan.1 latRan.2))] := by
  rw [srtm_zone_eq_some hlat]
  congr 1
  unfold srtmZoneList
  have hall : ∀ x ∈ ((srtmLonSamples lonRan).flatMap fun lon =>
      (srtmLatSamples latRan).map fun lat => srtmZoneName lon lat),
      x = pad0 2 (srtmTileX (min lonRan.1 lonRan.2)) ++ "_" ++
          pad0 2 (srtmTileY (min latRan.1 latRan.2)) := by
    intro x hx2
    rw [List.mem_flatMap] at hx2
    obtain ⟨lon, hlon, hx3⟩ := hx2
    rw [List.mem_map] at hx3
    obtain ⟨lat, hlat3, rfl⟩ := hx3
    have h1 := srtm_lon_image.mp ⟨lon, hlon, rfl⟩
    have h2 := srtm_lat_image.mp ⟨lat, hlat3, rfl⟩
    have e1 : srtmTileX lon = srtmTileX (min lonRan.1 lonRan.2) := by omega
    have e2 : srtmTileY lat = srtmTileY (min latRan.1 latRan.2) := by omega
    rw [srtmZoneName, e1, e2]
  have hlon0 : min lonRan.1 lonRan.2 ∈ srtmLonSamples lonRan :=
    linspace_first (by
      have := three_le_nCover (min_le_max (a := lonRan.1) (b := lonRan.2))
      omega)
  have hlat0 : min latRan.1 latRan.2 ∈ srtmLatSamples latRan :=
    linspace_first (by
      have := three_le_nCover (min_le_max (a := latRan.1) (b := latRan.2))
      omega)
  have hne : ((srtmLonSamples lonRan).flatMap fun lon =>
      (srtmLatSamples latRan).map fun lat => srtmZoneName lon lat) ≠ [] :=
    List.ne_nil_of_mem (List.mem_flatMap.mpr
      ⟨min lonRan.1 lonRan.2, hlon0,
       List.mem_map.mpr ⟨min latRan.1 latRan.2, hlat0, rfl⟩⟩)
  rw [dedup_const hne hall]
  rfl

theorem c4_witness :
    (srtmTileX (min ((11:ℚ), (12:ℚ)).1 ((11:ℚ), (12:ℚ)).2) =
      srtmTileX (max ((11:ℚ), (12:ℚ)).1 ((11:ℚ), (12:ℚ)).2)) ∧
    srtm_zone (11, 12) (46, 47) = some ["39_03"] :=
  ⟨by decide,
   by
    have h := c4_single_cell (11, 12) (46, 47) (by decide) (by decide)
      (by norm_num)
    rw [h]
    decide⟩

theorem min_pair (x y : ℚ) : min (x, y).1 (x, y).2 = min x y := rfl

theorem max_pair (x y : ℚ) : max (x, y).1 (x, y).2 = max x y := rfl

/-- C7.  Coverage monotonicity of the degree-grid indexer: for two
adjacent, non-overlapping sub-extents (split along either axis at a
shared boundary), each sub-extent and the combined bounding extent pass
the latitude guard and return their zone lists, and the union of the
two zone sets equals the zone set of the combined bounding extent. -/
theorem c7_adjacent_union :
    (∀ (a b c : ℚ) (latRan : ℚ × ℚ), a ≤ b → b ≤ c →
      max latRan.1 latRan.2 < 60 →
      srtm_zone (a, c) latRan = some (srtmZoneList (a, c) latRan) ∧
      srtm_zone (a, b) latRan = some (srtmZoneList (a, b) latRan) ∧
      srtm_zone (b, c) latRan = some (srtmZoneList (b, c) latRan) ∧
      (∀ s, s ∈ srtmZoneList (a, c) latRan ↔
        s ∈ srtmZoneList (a, b) latRan ∨ s ∈ srtmZoneList (b, c) latRan)) ∧
    (∀ (lonRan : ℚ × ℚ) (d e f : ℚ), d ≤ e → e ≤ f → f < 60 →
      srtm_zone lonRan (d, f) = some (srtmZoneList lonRan (d, f)) ∧
      srtm_zone lonRan (d, e) = some (srtmZoneList lonRan (d, e)) ∧
      srtm_zone lonRan (e, f) = some (srtmZoneList lonRan (e, f)) ∧
      (∀ s, s ∈ srtmZoneList lonRan (d, f) ↔
        s ∈ srtmZoneList lonRan (d, e) ∨ s ∈ srtmZoneList lonRan (e, f))) := by
  constructor
  · intro a b c latRan hab hbc hlat
    have hac : a ≤ c := le_trans hab hbc
    refine ⟨srtm_zone_eq_some hlat, srtm_zone_eq_some hlat,
      srtm_zone_eq_some hlat, ?_⟩
    intro s
    rw [mem_srtmZoneList_iff, mem_srtmZoneList_iff, mem_srtmZoneList_iff,
      min_pair, min_pair, min_pair, max_pair, max_pair, max_pair,
      min_eq_left hac, max_eq_right hac, min_eq_left hab, max_eq_right hab,
      min_eq_left hbc, max_eq_right hbc]
    constructor
    · rintro ⟨zx, zy, ⟨h1, h2⟩, hy, rfl⟩
      by_cases hzb : zx ≤ srtmTileX b
      · exact Or.inl ⟨zx, zy, ⟨h1, hzb⟩, hy, rfl⟩
      · exact Or.inr ⟨zx, zy, ⟨by omega, h2⟩, hy, rfl⟩
    · rintro (⟨zx, zy, ⟨h1, h2⟩, hy, rfl⟩ | ⟨zx, zy, ⟨h1, h2⟩, hy, rfl⟩)
      · exact ⟨zx, zy, ⟨h1, le_trans h2 (srtmTileX_mono hbc)⟩, hy, rfl⟩
      · exact ⟨zx, zy, ⟨le_trans (srtmTileX_mono hab) h1, h2⟩, hy, rfl⟩
  · intro lonRan d e f hde hef hf
    have hdf : d ≤ f := le_trans hde hef
    have hlat1 : max ((d, f) : ℚ × ℚ).1 ((d, f) : ℚ × ℚ).2 < 60 := by
      rw [max_pair, max_eq_right hdf]; exact hf
    have hlat2 : max ((d, e) : ℚ × ℚ).1 ((d, e) : ℚ × ℚ).2 < 60 := by
      rw [max_pair, max_eq_right hde]; linarith
    have hlat3 : max ((e, f) : ℚ × ℚ).1 ((e, f) : ℚ × ℚ).2 < 60 := by
      rw [max_pair, max_eq_right hef]; exact hf
    refine ⟨srtm_zone_eq_some hlat1, srtm_zone_eq_some hlat2,
      srtm_zone_eq_some hlat3, ?_⟩
    intro s
    rw [mem_srtmZoneList_iff, mem_srtmZoneList_iff, mem_srtmZoneList_iff,
      min_pair, min_pair, min_pair, max_pair, max_pair, max_pair,
      min_eq_left hdf, max_eq_right hdf, min_eq_left hde, max_eq_right hde,
      min_eq_left hef, max_eq_right hef]
    constructor
    · rintro ⟨zx, zy, hx, ⟨h1, h2⟩, rfl⟩
      by_cases hze : srtmTileY e ≤ zy
      · exact Or.inl ⟨zx, zy, hx, ⟨hze, h2⟩, rfl⟩
      · exact Or.inr ⟨zx, zy, hx, ⟨h1, by omega⟩, rfl⟩
    · rintro (⟨zx, zy, hx, ⟨h1, h2⟩, rfl⟩ | ⟨zx, zy, hx, ⟨h1, h2⟩, rfl⟩)
      · exact ⟨zx, zy, hx, ⟨le_trans (srtmTileY_anti hef) h1, h2⟩, rfl⟩
      · exact ⟨zx, zy, hx, ⟨h1, le_trans h2 (srtmTileY_anti hde)⟩, rfl⟩

theorem c7_witness :
    ((3:ℚ) ≤ 10 ∧ (10:ℚ) ≤ 12 ∧
      max ((46:ℚ), (47:ℚ)).1 ((46:ℚ), (47:ℚ)).2 < 60) ∧
    (∀ s, s ∈ srtmZoneList (3, 12) (46, 47) ↔
      s ∈ srtmZoneList (3, 10) (46, 47) ∨ s ∈ srtmZoneList (10, 12) (46, 47)) :=
  ⟨⟨by norm_num, by norm_num, by norm_num⟩,
   (c7_adjacent_union.1 3 10 12 (46, 47) (by norm_num) (by norm_num)
     (by norm_num)).2.2.2⟩

/-- C10.  There exist valid inputs on which `get_topo_file` dies
with `UnboundLocalError` (`sources` referenced before assignment):
an ordered-list `source` whose entries are exhausted without producing
an existing file falls through into the single-source logic with the
list value, and an explicit `'SRTM'` request for an extent outside ±60°
latitude enters the DEM3/ASTER arm without any branch assigning
`sources`. -/
theorem c10_unbound_sources (env : TopoEnv) (lonEx latEx : ℚ × ℚ)
    (hdem : env.demFile = Option.none) :
    get_topo_file env lonEx latEx Option.none (.list []) =
      ⟨.error .unboundLocal, []⟩ ∧
    (min latEx.1 latEx.2 < -60 ∨ 60 < max latEx.1 latEx.2 →
      get_topo_file env lonEx latEx Option.none (.str "SRTM") =
        ⟨.error .unboundLocal, []⟩) := by
  constructor
  · simp only [get_topo_file, getTopoLoop, getTopoCore, hdem, topoGimp, topoRamp,
      topoMain]
    by_cases hcond : min latEx.1 latEx.2 < -60 ∨ max latEx.1 latEx.2 > 60
    · rcases hcond with h | h <;> simp [h, topoEtopo, topoFinish]
    · push_neg at hcond
      simp [not_lt.mpr hcond.1, not_lt.mpr hcond.2, topoEtopo, topoFinish]
  · intro hout
    simp only [get_topo_file, getTopoCore, hdem, topoGimp, topoRamp, topoMain]
    rcases hout with h | h <;> simp [h, topoEtopo, topoFinish]

theorem c9_witness :
    ((10 : ℚ), (12 : ℚ)).1 = 10 ∧
    get_topo_file ⟨Option.none, "topo", fun _ => false, fun _ => ""⟩
      (10, 12) (50, 60) Option.none .none = ⟨.error .srtmAssert, ["SRTM"]⟩ :=
  ⟨rfl, c9_srtm_assert_at_lat60.2 _ (10, 12) (50, 60) rfl (by norm_num) (by norm_num)⟩

/-- C2.  Source selection in `get_topo_file` with no region hint and
no configured user DEM file: within ±60° latitude and no explicit
source, the degree-grid (SRTM) indexer runs; outside ±60° (minimum
latitude below -60° or maximum above 60°) with no explicit source, or
an explicit DEM3 request, the lettered-grid indexer runs; an explicit
ASTER request runs the unit/tile indexer.  In every case exactly one
indexer runs (the trace is a singleton): first applicable rule wins. -/
theorem c2_source_selection (env : TopoEnv) (lonEx latEx : ℚ × ℚ)
    (hdem : env.demFile = Option.none) :
    (¬ min latEx.1 latEx.2 < -60 → ¬ max latEx.1 latEx.2 > 60 →
      (get_topo_file env lonEx latEx Option.none .none).trace = ["SRTM"]) ∧
    (min latEx.1 latEx.2 < -60 ∨ max latEx.1 latEx.2 > 60 →
      (get_topo_file env lonEx latEx Option.none .none).trace = ["DEM3"]) ∧
    (get_topo_file env lonEx latEx Option.none (.str "DEM3")).trace = ["DEM3"] ∧
    (get_topo_file env lonEx latEx Option.none (.str "ASTER")).trace = ["ASTER"] := by
  have hroute : ∀ src : PySource, ¬ src = .str "GIMP" → ¬ src = .str "RAMP" →
      getTopoCore env lonEx latEx Option.none src = topoMain env lonEx latEx src := by
    intro src hg hr
    simp [getTopoCore, hdem, topoGimp, topoRamp, hg, hr]
  refine ⟨?_, ?_, ?_, ?_⟩
  · intro hmin hmax
    have hcond : ¬ (min latEx.1 latEx.2 < -60 ∨ max latEx.1 latEx.2 > 60 ∨
        PySource.none = PySource.str "DEM3" ∨ PySource.none = PySource.str "ASTER") := by
      rintro (h | h | h | h)
      · exact hmin h
      · exact hmax h
      · exact PySource.noConfusion h
      · exact PySource.noConfusion h
    rw [show get_topo_file env lonEx latEx Option.none .none =
      getTopoCore env lonEx latEx Option.none .none from rfl,
      hroute _ (by simp) (by simp), topoMain, if_neg hcond]
    cases hsz : srtm_zone lonEx latEx with
    | none => simp
    | some zones =>
        by_cases hz : zones.isEmpty <;>
          simp [hz, topoEtopo, topoFinish]
  · intro hout
    have hcond : min latEx.1 latEx.2 < -60 ∨ max latEx.1 latEx.2 > 60 ∨
        PySource.none = PySource.str "DEM3" ∨ PySource.none = PySource.str "ASTER" := by
      tauto
    rw [show get_topo_file env lonEx latEx Option.none .none =
      getTopoCore env lonEx latEx Option.none .none from rfl,
      hroute _ (by simp) (by simp), topoMain, if_pos hcond]
    by_cases hz : (dem3_viewpano_zone lonEx latEx DEM3REG).isEmpty <;>
      simp [hz, topoEtopo, topoFinish]
  · by_cases hcond : min latEx.1 latEx.2 < -60 ∨ max latEx.1 latEx.2 > 60 ∨
        PySource.str "DEM3" = PySource.str "DEM3" ∨
        PySource.str "DEM3" = PySource.str "ASTER"
    · rw [show get_topo_file env lonEx latEx Option.none (.str "DEM3") =
        getTopoCore env lonEx latEx Option.none (.str "DEM3") from rfl,
        hroute _ (by simp) (by simp), topoMain, if_pos hcond]
      by_cases hz : (dem3_viewpano_zone lonEx latEx DEM3REG).isEmpty <;>
        simp [hz, topoEtopo, topoFinish]
    · exact absurd (Or.inr (Or.inr (Or.inl rfl))) hcond
  · by_cases hcond : min latEx.1 latEx.2 < -60 ∨ max latEx.1 latEx.2 > 60 ∨
        PySource.str "ASTER" = PySource.str "DEM3" ∨
        PySource.str "ASTER" = PySource.str "ASTER"
    · rw [show get_topo_file env lonEx latEx Option.none (.str "ASTER") =
        getTopoCore env lonEx latEx Option.none (.str "ASTER") from rfl,
        hroute _ (by simp) (by simp), topoMain, if_pos hcond]
      by_cases hz : ((aster_zone lonEx latEx).1.zip (aster_zone lonEx latEx).2).isEmpty <;>
        simp [hz, topoEtopo, topoFinish]
    · exact absurd (Or.inr (Or.inr (Or.inr rfl))) hcond

theorem c2_witness :
    (⟨Option.none, "topo", fun _ => false, fun _ => ""⟩ : TopoEnv).demFile =
      Option.none ∧
    (get_topo_file ⟨Option.none, "topo", fun _ => false, fun _ => ""⟩
      (10, 12) (46, 47) Option.none .none).trace = ["SRTM"] :=
  ⟨rfl, (c2_source_selection _ (10, 12) (46, 47) rfl).1 (by norm_num) (by norm_num)⟩

theorem c10_witness :
    (⟨Option.none, "topo", fun _ => false, fun _ => ""⟩ : TopoEnv).demFile =
      Option.none ∧
    get_topo_file ⟨Option.none, "topo", fun _ => false, fun _ => ""⟩
      (10, 12) (61, 62) Option.none (.str "SRTM") = ⟨.error .unboundLocal, []⟩ :=
  ⟨rfl, (c10_unbound_sources _ (10, 12) (61, 62) rfl).2 (Or.inr (by norm_num))⟩

end Geodo
